import Mathlib

/-!
Verification of the Figma-to-code synthesis engine of this repository.

The definitions below are a shallow embedding of the TypeScript sources:
  - `Advanced` embeds `src/client/src/services/advanced-code-generator.ts`
    (class `AdvancedCodeGenerator`),
  - `Hook` embeds the `useCodeGeneration` module appended in the same file
    (its `generateCSS` helper),
  - `Utils` embeds `src/client/src/utils/code-generator.ts`
    (class `CodeGenerator`).

Modelling conventions, applied uniformly:
  - JavaScript numbers are modelled as `ℚ` (all values exercised by the
    claims are integers or finite decimals; no floating-point rounding is
    involved at those values); `Math.round` is `jsRound : ℚ → ℤ`.
  - Optional fields are `Option`; JavaScript truthiness of an optional
    number is `numTruthy` (`0` and `undefined` are falsy), of a string is
    `strTruthy` (`""` is falsy).  An optional array field is modelled as a
    plain list, since every use in the sources treats `undefined` and `[]`
    identically.
  - A JavaScript object used as a string-keyed record of style
    declarations is modelled as the list of its assignments in program
    order; `jsGet` reads the value of the last assignment to a key, and
    `jsEntries` reproduces `Object.entries` order (first-assignment order,
    latest value).
  - Wall-clock durations (`Date.now()` differences) are modelled as `0`.
-/

/-- ASCII-alphanumeric filter, the effect of `replace(/[^a-zA-Z0-9]/g, '')`. -/
def filterAlnum (s : String) : String :=
  String.mk (s.data.filter Char.isAlphanum)

/-- ASCII `toLowerCase` (every name exercised by the claims is ASCII). -/
def jsToLower (s : String) : String := String.mk (s.data.map Char.toLower)

/-- `Math.round`: round half toward positive infinity,
`⌊q + 1/2⌋` computed by integer floor division. -/
def jsRound (q : ℚ) : ℤ := Int.fdiv (2 * q.num + (q.den : ℤ)) (2 * (q.den : ℤ))

/-- JavaScript truthiness of an optional number: `undefined` and `0` are falsy. -/
def numTruthy : Option ℚ → Bool
  | none => false
  | some q => q != 0

/-- JavaScript truthiness of a string: only `""` is falsy. -/
def strTruthy (s : String) : Bool := s ≠ ""

/-- `a.includes(b)` on strings. -/
def strIncludes (s pat : String) : Bool := decide (pat.data <:+: s.data)

/-- Rendering of a number inside a JavaScript template literal.  Exact for
integers and for rationals with a finite decimal expansion, which covers
every numeric value exercised in this development. -/
def qToJsString (q : ℚ) : String :=
  if q.den = 1 then toString q.num
  else
    match (List.range 20).find? (fun k => q.den ∣ 10 ^ (k + 1)) with
    | some k =>
        let sign := if q < 0 then "-" else ""
        let p := 10 ^ (k + 1)
        let m := q.num.natAbs * p / q.den
        let fpStr := toString (m % p)
        let pad := String.mk (List.replicate (k + 1 - fpStr.length) '0')
        sign ++ toString (m / p) ++ "." ++ pad ++ fpStr
    | none => toString q.num ++ "/" ++ toString q.den

/-- Rendering of a possibly-`undefined` number inside a template literal. -/
def jsNumField : Option ℚ → String
  | some q => qToJsString q
  | none => "undefined"

/-- Value of the last assignment to `key` in an assignment list
(the final state of the corresponding JavaScript object field). -/
def jsGet : List (String × String) → String → Option String
  | [], _ => none
  | (k, v) :: rest, key =>
    match jsGet rest key with
    | some r => some r
    | none => if k == key then some v else none

/-- `Object.entries` of an assignment list: keys in order of first
assignment, each carrying its last assigned value. -/
def jsEntries (l : List (String × String)) : List (String × String) :=
  l.foldl
    (fun acc kv =>
      if acc.any (fun p => p.1 == kv.1) then
        acc.map (fun p => if p.1 == kv.1 then (p.1, kv.2) else p)
      else acc ++ [kv])
    []

/-- Lookup in a `Map`-like association list (keys are unique, as in a
JavaScript `Map`). -/
def alGet {α : Type} : List (String × α) → String → Option α
  | [], _ => none
  | (k', v') :: rest, k => if k' == k then some v' else alGet rest k

/-- `Map.set`: overwrite the existing binding in place or append a new
one (JavaScript `Map` insertion-order semantics on unique keys). -/
def alSet {α : Type} : List (String × α) → String → α → List (String × α)
  | [], k, v => [(k, v)]
  | (k', v') :: rest, k, v =>
    if k' == k then (k, v) :: rest else (k', v') :: alSet rest k v

/-- The effect of `replace(/\s+/g, '-')`: every maximal run of whitespace
becomes a single `-`.  The flag records whether the previous character was
whitespace. -/
def collapseWsAux : List Char → Bool → List Char
  | [], _ => []
  | c :: rest, prevWs =>
    if c.isWhitespace then
      (if prevWs then [] else ['-']) ++ collapseWsAux rest true
    else c :: collapseWsAux rest false

/-- `replace(/\s+/g, '-')` on a string. -/
def collapseWs (s : String) : String := String.mk (collapseWsAux s.data false)

/-- `str.replace(/([a-z0-9]|(?=[A-Z]))([A-Z])/g, '$1-$2').toLowerCase()`:
equivalent to inserting `-` before every ASCII uppercase letter and
lowercasing. -/
def camelToKebab (s : String) : String :=
  String.mk (s.data.foldr
    (fun c acc => if c.isUpper then '-' :: c.toLower :: acc else c :: acc) [])

/-- An `{r,g,b,a}` colour; channels in `[0,1]`, `a` optional. -/
structure Color where
  r : ℚ
  g : ℚ
  b : ℚ
  a : Option ℚ := none
deriving DecidableEq, Repr

/-- A paint (fill or stroke). -/
structure Paint where
  type : String
  color : Option Color := none
  opacity : Option ℚ := none
deriving DecidableEq, Repr

/-- A shadow offset. -/
structure EffectOffset where
  x : ℚ
  y : ℚ
deriving DecidableEq, Repr

/-- A visual effect. -/
structure Effect where
  type : String
  visible : Option Bool := none
  radius : Option ℚ := none
  color : Option Color := none
  offset : Option EffectOffset := none
deriving DecidableEq, Repr

/-- Layout constraints. -/
structure Constraints where
  horizontal : String
  vertical : String
deriving DecidableEq, Repr

/-- An absolute bounding box. -/
structure BBox where
  x : ℚ := 0
  y : ℚ := 0
  width : ℚ
  height : ℚ
deriving DecidableEq, Repr

/-- Text styling (`TypeStyle`). -/
structure TypeStyle where
  fontFamily : String := ""
  fontSize : ℚ := 0
  fontWeight : Option ℚ := none
  lineHeightPx : Option ℚ := none
  letterSpacing : Option ℚ := none
  textAlignHorizontal : Option String := none
  fills : List Paint := []
deriving DecidableEq, Repr

/-- The non-recursive attributes of a design node. -/
structure NodeCore where
  id : String := ""
  name : String := ""
  type : String := "FRAME"
  absoluteBoundingBox : Option BBox := none
  constraints : Option Constraints := none
  layoutMode : Option String := none
  itemSpacing : Option ℚ := none
  paddingLeft : Option ℚ := none
  paddingRight : Option ℚ := none
  paddingTop : Option ℚ := none
  paddingBottom : Option ℚ := none
  fills : List Paint := []
  strokes : List Paint := []
  strokeWeight : Option ℚ := none
  cornerRadius : Option ℚ := none
  backgroundColor : Option Color := none
  opacity : Option ℚ := none
  effects : List Effect := []
  characters : Option String := none
  style : Option TypeStyle := none
deriving DecidableEq, Repr

/-- A design node: its attributes and its ordered children. -/
inductive FigmaNode where
  | mk (core : NodeCore) (children : List FigmaNode)

/-- The attribute record of a node. -/
def FigmaNode.core : FigmaNode → NodeCore
  | .mk c _ => c

/-- The ordered children of a node (`[]` stands for both `undefined`
and an empty array, which the sources never distinguish). -/
def FigmaNode.children : FigmaNode → List FigmaNode
  | .mk _ cs => cs

/-- Node id. -/
def FigmaNode.id (n : FigmaNode) : String := n.core.id

/-- Node name. -/
def FigmaNode.name (n : FigmaNode) : String := n.core.name

/-- Node type discriminator. -/
def FigmaNode.type (n : FigmaNode) : String := n.core.type

/-- An entry of the document's named-components table. -/
structure FigmaComponent where
  key : String
  name : String
  description : Option String := none
deriving DecidableEq, Repr

/-- The slice of the Figma API file response read by the generator:
the document root and the named-components table (a string-keyed record,
kept as its entry list in insertion order). -/
structure FigmaApiResponse where
  document : FigmaNode
  components : List (String × FigmaComponent)

/-- The `framework` option. -/
inductive Framework where
  | react | vue | html
deriving DecidableEq, Repr

/-- The `styling` option; constructors stand for the source literals
`'tailwind' | 'css-modules' | 'styled-components' | 'plain-css'`. -/
inductive Styling where
  | tailwind | cssModules | styledComponents | plainCss
deriving DecidableEq, Repr

/-- The source string literal of a `Styling` value. -/
def Styling.str : Styling → String
  | .tailwind => "tailwind"
  | .cssModules => "css-modules"
  | .styledComponents => "styled-components"
  | .plainCss => "plain-css"

/-- `CodeGenerationOptions`. -/
structure CodeGenerationOptions where
  framework : Framework
  styling : Styling
  typescript : Bool
  accessibility : Bool := true
  responsive : Bool := true
  optimizeImages : Bool := false
deriving DecidableEq, Repr

/-- `CustomCodeInputs`; a field is "supplied" when non-empty (JS truthiness). -/
structure CustomCodeInputs where
  jsx : String := ""
  css : String := ""
  cssAdvanced : String := ""
deriving DecidableEq, Repr

/-- One entry of `AccessibilityReport.issues`. -/
structure AccessibilityIssue where
  type : String
  message : String
  element : String
  fix : String
deriving DecidableEq, Repr

/-- `AccessibilityReport`. -/
structure AccessibilityReport where
  score : ℤ
  issues : List AccessibilityIssue
  suggestions : List String
  wcagCompliance : String
deriving DecidableEq, Repr

/-- `ResponsiveBreakpoints`. -/
structure ResponsiveBreakpoints where
  mobile : String
  tablet : String
  desktop : String
  hasResponsiveDesign : Bool
deriving DecidableEq, Repr

/-- `ComponentMetadata`; `generationTime` is wall-clock and modelled as `0`. -/
structure ComponentMetadata where
  figmaNodeId : String
  componentType : String
  complexity : String
  estimatedAccuracy : ℤ
  generationTime : ℤ
  dependencies : List String
deriving DecidableEq, Repr

/-- `GeneratedComponent`; the `typescript` field is present iff the
`typescript` option is set (the conditional object spread). -/
structure GeneratedComponent where
  id : String
  name : String
  jsx : String
  css : String
  typescript : Option String
  accessibility : AccessibilityReport
  responsive : ResponsiveBreakpoints
  metadata : ComponentMetadata
deriving DecidableEq, Repr

namespace Advanced

/-- `sanitizeComponentName`: strip non-alphanumerics, prefix `Component`
when the result starts with a digit, uppercase the first character, and
fall back to `Component` when empty. -/
def sanitizeComponentName (name : String) : String :=
  let s := filterAlnum name
  let s := match s.data with
    | c :: _ => if c.isDigit then "Component" ++ s else s
    | [] => s
  let s := match s.data with
    | c :: rest => String.mk (c.toUpper :: rest)
    | [] => s
  if s == "" then "Component" else s

/-- `colorToCSS`: `rgba(round(r*255), round(g*255), round(b*255), alpha)`
(with a space after each comma); alpha is the explicit `opacity` argument
if given, else the colour's own `a` channel, else `1`. -/
def colorToCSS (color : Color) (opacity : Option ℚ) : String :=
  let alpha := match opacity with
    | some o => o
    | none => match color.a with
      | some a => a
      | none => 1
  "rgba(" ++ toString (jsRound (color.r * 255)) ++ ", " ++
    toString (jsRound (color.g * 255)) ++ ", " ++
    toString (jsRound (color.b * 255)) ++ ", " ++ qToJsString alpha ++ ")"

/-- `colorToTailwind`: nearest of a small fixed palette, gray fallback. -/
def colorToTailwind (color : Color) : String :=
  if color.r > 9/10 && color.g > 9/10 && color.b > 9/10 then "bg-white"
  else if color.r < 1/10 && color.g < 1/10 && color.b < 1/10 then "bg-black"
  else if color.r > 8/10 && color.g < 3/10 && color.b < 3/10 then "bg-red-500"
  else if color.r < 3/10 && color.g > 8/10 && color.b < 3/10 then "bg-green-500"
  else if color.r < 3/10 && color.g < 3/10 && color.b > 8/10 then "bg-blue-500"
  else "bg-gray-500"

/-- `pxToTailwindSpacing`: divide by 4 and round, clamp to the step scale,
else an arbitrary-value token. -/
def pxToTailwindSpacing (px : ℚ) : String :=
  let spacing := jsRound (px / 4)
  if spacing ≤ 0 then "0"
  else if spacing ≤ 96 then toString spacing
  else "[" ++ qToJsString px ++ "px]"

/-- `borderRadiusToTailwind`. -/
def borderRadiusToTailwind (radius : ℚ) : String :=
  if radius ≤ 2 then "rounded-sm"
  else if radius ≤ 4 then "rounded"
  else if radius ≤ 6 then "rounded-md"
  else if radius ≤ 8 then "rounded-lg"
  else if radius ≤ 12 then "rounded-xl"
  else if radius ≤ 16 then "rounded-2xl"
  else "rounded-[" ++ qToJsString radius ++ "px]"

/-- `fontSizeToTailwind`. -/
def fontSizeToTailwind (fontSize : ℚ) : String :=
  if fontSize ≤ 12 then "text-xs"
  else if fontSize ≤ 14 then "text-sm"
  else if fontSize ≤ 16 then "text-base"
  else if fontSize ≤ 18 then "text-lg"
  else if fontSize ≤ 20 then "text-xl"
  else if fontSize ≤ 24 then "text-2xl"
  else if fontSize ≤ 30 then "text-3xl"
  else "text-[" ++ qToJsString fontSize ++ "px]"

/-- `isImage`: the fill list contains an `IMAGE` paint. -/
def isImage (n : FigmaNode) : Bool :=
  n.core.fills.any (fun f => f.type == "IMAGE")

/-- `isInteractiveElement`: the lowercased name contains one of the fixed
interaction keywords. -/
def isInteractiveElement (n : FigmaNode) : Bool :=
  let name := (jsToLower n.name)
  strIncludes name "button" || strIncludes name "link" ||
    strIncludes name "input" || strIncludes name "click"

/-- `isHeading`: a text node whose name contains `title`/`heading`/`header`
or whose font size exceeds 20 (the `fontSize` truthiness guard of the
source is kept). -/
def isHeading (n : FigmaNode) : Bool :=
  if n.type != "TEXT" then false
  else
    let name := (jsToLower n.name)
    strIncludes name "title" || strIncludes name "heading" ||
      strIncludes name "header" ||
      (match n.core.style with
        | some st => st.fontSize != 0 && decide (st.fontSize > 20)
        | none => false)

/-- `calculateContrastRatio`: a fixed placeholder, always `4.5`. -/
def calculateContrastRatio (_n : FigmaNode) : ℚ := 9/2

/-- `getHtmlTag`. -/
def getHtmlTag (n : FigmaNode) : String :=
  if n.type == "TEXT" then (if isHeading n then "h2" else "span")
  else if n.type == "FRAME" then "div"
  else if n.type == "RECTANGLE" then (if isImage n then "img" else "div")
  else if n.type == "COMPONENT" || n.type == "INSTANCE" then "div"
  else "div"

/-- `generateResponsiveCSS`: a placeholder comment per breakpoint. -/
def generateResponsiveCSS (_n : FigmaNode) (breakpoint : String) : String :=
  "/* " ++ breakpoint ++ " responsive styles */"

/-- `analyzeResponsive`.  Note the optional chains: when `constraints` is
absent, `node.constraints?.horizontal !== 'LEFT'` evaluates to
`undefined !== 'LEFT'`, i.e. `true`. -/
def analyzeResponsive (n : FigmaNode) : ResponsiveBreakpoints :=
  let hasFlexLayout :=
    n.core.layoutMode == some "HORIZONTAL" || n.core.layoutMode == some "VERTICAL"
  let hasConstraints :=
    (n.core.constraints.map Constraints.horizontal) != some "LEFT" ||
      (n.core.constraints.map Constraints.vertical) != some "TOP"
  { mobile := generateResponsiveCSS n "mobile"
    tablet := generateResponsiveCSS n "tablet"
    desktop := generateResponsiveCSS n "desktop"
    hasResponsiveDesign := hasFlexLayout || hasConstraints }

/-- `analyzeAccessibility`: start at 100, −15 for a missing-alt image,
−10 for a low-contrast text node (unreachable, the stub returns 4.5),
suggestions for interactive/heading nodes and custom code; the returned
score is clamped at 0 and `wcagCompliance` is derived from the score. -/
def analyzeAccessibility (cc : CustomCodeInputs) (n : FigmaNode) :
    AccessibilityReport :=
  let issues : List AccessibilityIssue := []
  let suggestions : List String := []
  let score : ℤ := 100
  let (issues, score) :=
    if isImage n then
      (issues ++ [{ type := "error", message := "Kép hiányzó alt szöveg",
                    element := n.name,
                    fix := "Adj hozzá alt attribútumot leíró szöveggel" }],
       score - 15)
    else (issues, score)
  let (issues, score) :=
    if n.type == "TEXT" then
      if calculateContrastRatio n < 45/10 then
        (issues ++ [{ type := "warning", message := "Alacsony szöveg kontraszt",
                      element := n.name,
                      fix := "Növeld a szöveg és háttér közötti kontrasztot" }],
         score - 10)
      else (issues, score)
    else (issues, score)
  let suggestions :=
    if isInteractiveElement n then
      suggestions ++ ["Biztosítsd a billentyűzetes navigáció támogatását",
                      "Adj hozzá ARIA címkéket a képernyőolvasókhoz",
                      "Használj megfelelő focus állapotokat"]
    else suggestions
  let suggestions :=
    if isHeading n then
      suggestions ++ ["Ellenőrizd a címsor hierarchiát (h1, h2, h3...)"]
    else suggestions
  let suggestions :=
    if strTruthy cc.jsx || strTruthy cc.css then
      suggestions ++ ["Ellenőrizd az egyéni kód accessibility megfelelőségét",
                      "Teszteld a komponenst képernyőolvasóval"]
    else suggestions
  { score := max 0 score
    issues := issues
    suggestions := suggestions
    wcagCompliance :=
      if score ≥ 80 then "AA" else if score ≥ 60 then "A" else "Non-compliant" }

/-- `detectComponentType`: name-substring match in source order, then the
`TEXT` node kind, then the child-count bucket. -/
def detectComponentType (n : FigmaNode) : String :=
  let name := (jsToLower n.name)
  if strIncludes name "button" then "button"
  else if strIncludes name "card" then "card"
  else if strIncludes name "text" || n.type == "TEXT" then "text"
  else if strIncludes name "input" then "input"
  else if n.children.length > 3 then "layout"
  else "complex"

/-- `calculateComplexity`: +1 per child, +2 if any effect, +1 if more than
one fill, +1 if any custom code fragment is supplied; bucketed at 3 and 8. -/
def calculateComplexity (cc : CustomCodeInputs) (n : FigmaNode) : String :=
  let complexity : ℤ := 0
  let complexity := complexity + n.children.length
  let complexity := if !n.core.effects.isEmpty then complexity + 2 else complexity
  let complexity := if n.core.fills.length > 1 then complexity + 1 else complexity
  let complexity :=
    if strTruthy cc.jsx || strTruthy cc.css || strTruthy cc.cssAdvanced then
      complexity + 1
    else complexity
  if complexity ≤ 3 then "simple"
  else if complexity ≤ 8 then "medium"
  else "complex"

/-- `estimateAccuracy`: base 85, +10 if simple, −5 if more than five
children, +5 for button/text/card, +5 if any custom code fragment is
supplied, clamped to `[70,100]`. -/
def estimateAccuracy (cc : CustomCodeInputs) (n : FigmaNode) : ℤ :=
  let accuracy : ℤ := 85
  let accuracy :=
    if calculateComplexity cc n == "simple" then accuracy + 10 else accuracy
  let accuracy := if n.children.length > 5 then accuracy - 5 else accuracy
  let accuracy :=
    if ["button", "text", "card"].contains (detectComponentType n) then
      accuracy + 5
    else accuracy
  let accuracy :=
    if strTruthy cc.jsx || strTruthy cc.css || strTruthy cc.cssAdvanced then
      accuracy + 5
    else accuracy
  min 100 (max 70 accuracy)

/-- `extractDependencies`. -/
def extractDependencies (opts : CodeGenerationOptions) (n : FigmaNode) :
    List String :=
  let deps := ["react"]
  let deps := if opts.typescript then deps ++ ["@types/react"] else deps
  let deps := if isImage n then deps ++ ["next/image"] else deps
  let deps :=
    if opts.styling == Styling.styledComponents then
      deps ++ ["styled-components"]
    else deps
  deps

/-- `generateMetadata` (wall-clock `generationTime` modelled as `0`). -/
def generateMetadata (cc : CustomCodeInputs) (opts : CodeGenerationOptions)
    (n : FigmaNode) (generationTime : ℤ) : ComponentMetadata :=
  { figmaNodeId := n.id
    componentType := detectComponentType n
    complexity := calculateComplexity cc n
    estimatedAccuracy := estimateAccuracy cc n
    generationTime := generationTime
    dependencies := extractDependencies opts n }

end Advanced

/-- Truthiness of an optional string field. -/
def strOptTruthy : Option String → Bool
  | none => false
  | some s => s ≠ ""

namespace Advanced

/-- `gradientToCSS`: a fixed placeholder. -/
def gradientToCSS (_fill : Paint) : String :=
  "linear-gradient(90deg, #000 0%, #fff 100%)"

/-- `effectToCSS`: one `box-shadow` term for a drop shadow; offsets and
radius default to 0, the colour to `rgba(0,0,0,0.25)`. -/
def effectToCSS (effect : Effect) : String :=
  if effect.type == "DROP_SHADOW" then
    let x := match effect.offset with | some o => o.x | none => 0
    let y := match effect.offset with | some o => o.y | none => 0
    let blur := effect.radius.getD 0
    let colorCSS := match effect.color with
      | some c => colorToCSS c none
      | none => "rgba(0,0,0,0.25)"
    qToJsString x ++ "px " ++ qToJsString y ++ "px " ++
      qToJsString blur ++ "px " ++ colorCSS
  else ""

/-- `extractAllStyles`: the style object built by the source, as the list
of its field assignments in program order. -/
def extractAllStyles (n : FigmaNode) : List (String × String) :=
  let c := n.core
  (match c.absoluteBoundingBox with
    | some bb =>
        [("width", qToJsString bb.width ++ "px"),
         ("height", qToJsString bb.height ++ "px")]
    | none => []) ++
  (match c.layoutMode with
    | some lm =>
        if lm ≠ "" then
          [("display", "flex"),
           ("flexDirection", if lm == "HORIZONTAL" then "row" else "column")] ++
          (if numTruthy c.itemSpacing then
            [("gap", qToJsString (c.itemSpacing.getD 0) ++ "px")]
          else [])
        else []
    | none => []) ++
  (if numTruthy c.paddingLeft || numTruthy c.paddingRight ||
      numTruthy c.paddingTop || numTruthy c.paddingBottom then
    [("padding",
      qToJsString (c.paddingTop.getD 0) ++ "px " ++
      qToJsString (c.paddingRight.getD 0) ++ "px " ++
      qToJsString (c.paddingBottom.getD 0) ++ "px " ++
      qToJsString (c.paddingLeft.getD 0) ++ "px")]
  else []) ++
  (match c.backgroundColor with
    | some bg => [("backgroundColor", colorToCSS bg none)]
    | none => []) ++
  (match c.fills with
    | fill :: _ =>
        if fill.type == "SOLID" then
          match fill.color with
          | some col => [("backgroundColor", colorToCSS col fill.opacity)]
          | none => []
        else if fill.type == "GRADIENT_LINEAR" then
          [("background", gradientToCSS fill)]
        else []
    | [] => []) ++
  (if numTruthy c.cornerRadius then
    [("borderRadius", qToJsString (c.cornerRadius.getD 0) ++ "px")]
  else []) ++
  (match c.strokes with
    | stroke :: _ =>
        if numTruthy c.strokeWeight then
          match stroke.color with
          | some col =>
              [("border", qToJsString (c.strokeWeight.getD 0) ++ "px solid " ++
                colorToCSS col stroke.opacity)]
          | none => []
        else []
    | [] => []) ++
  (if c.type == "TEXT" then
    match c.style with
    | some st =>
        [("fontFamily", "\"" ++ st.fontFamily ++ "\", sans-serif"),
         ("fontSize", qToJsString st.fontSize ++ "px"),
         ("lineHeight", jsNumField st.lineHeightPx ++ "px"),
         ("letterSpacing", jsNumField st.letterSpacing ++ "px")] ++
        (match st.fills with
          | textFill :: _ =>
              match textFill.color with
              | some col => [("color", colorToCSS col textFill.opacity)]
              | none => []
          | [] => [])
    | none => []
  else []) ++
  (match c.opacity with
    | some o => if o ≠ 1 then [("opacity", qToJsString o)] else []
    | none => []) ++
  (if !c.effects.isEmpty then
    let shadows := (c.effects.filter
      (fun e => e.type == "DROP_SHADOW" && e.visible != some false)).map
      effectToCSS
    if !shadows.isEmpty then
      [("boxShadow", String.intercalate ", " shadows)]
    else []
  else [])

/-- `generateTailwindClasses`. -/
def generateTailwindClasses (n : FigmaNode) : String :=
  let c := n.core
  let classes : List String :=
    (if c.layoutMode == some "HORIZONTAL" then ["flex", "flex-row"]
     else if c.layoutMode == some "VERTICAL" then ["flex", "flex-col"]
     else []) ++
    (if numTruthy c.itemSpacing then
      ["gap-" ++ pxToTailwindSpacing (c.itemSpacing.getD 0)]
    else []) ++
    (if numTruthy c.paddingLeft then
      ["pl-" ++ pxToTailwindSpacing (c.paddingLeft.getD 0)] else []) ++
    (if numTruthy c.paddingRight then
      ["pr-" ++ pxToTailwindSpacing (c.paddingRight.getD 0)] else []) ++
    (if numTruthy c.paddingTop then
      ["pt-" ++ pxToTailwindSpacing (c.paddingTop.getD 0)] else []) ++
    (if numTruthy c.paddingBottom then
      ["pb-" ++ pxToTailwindSpacing (c.paddingBottom.getD 0)] else []) ++
    (match c.absoluteBoundingBox with
      | some bb =>
          ["w-[" ++ qToJsString bb.width ++ "px]",
           "h-[" ++ qToJsString bb.height ++ "px]"]
      | none => []) ++
    (match c.backgroundColor with
      | some bg => [colorToTailwind bg]
      | none => []) ++
    (if numTruthy c.cornerRadius then
      [borderRadiusToTailwind (c.cornerRadius.getD 0)] else []) ++
    (if c.type == "TEXT" then
      match c.style with
      | some st =>
          if st.fontSize != 0 then [fontSizeToTailwind st.fontSize] else []
      | none => []
    else [])
  String.intercalate " " classes

/-- The character class `[a-z0-9-]` of `generateClassName`. -/
def isClassNameChar (ch : Char) : Bool :=
  ch.isLower || ch.isDigit || ch == '-'

/-- `generateClassName`: Tailwind classes in the tailwind dialect, else the
lowercased name with whitespace runs collapsed to `-` and other characters
stripped. -/
def generateClassName (opts : CodeGenerationOptions) (n : FigmaNode) : String :=
  if opts.styling == Styling.tailwind then generateTailwindClasses n
  else String.mk ((collapseWs (jsToLower n.name)).data.filter isClassNameChar)

/-- `generateInlineStyles`: the style entries as a JSX double-brace object
literal, or `""` in the tailwind dialect. -/
def generateInlineStyles (opts : CodeGenerationOptions) (n : FigmaNode) :
    String :=
  if opts.styling == Styling.tailwind then ""
  else
    let styleEntries := String.intercalate ", "
      ((jsEntries (extractAllStyles n)).map
        (fun kv => kv.1 ++ ": \"" ++ kv.2 ++ "\""))
    if strTruthy styleEntries then "\x7b\x7b " ++ styleEntries ++ " \x7d\x7d"
    else ""

/-- `generateAttributes`: placeholder `src`/`alt` bindings for images. -/
def generateAttributes (n : FigmaNode) : String :=
  let attributes : List String :=
    if isImage n then ["src=\x7bsrc\x7d", "alt=\x7balt\x7d"] else []
  if !attributes.isEmpty then " " ++ String.intercalate " " attributes else ""

/-- A prop of the generated component. -/
structure PropDef where
  name : String
  type : String
  optional : Bool
deriving DecidableEq, Repr

/-- `extractProps`. -/
def extractProps (n : FigmaNode) : List PropDef :=
  (if n.type == "TEXT" && strOptTruthy n.core.characters then
    [{ name := "children", type := "React.ReactNode", optional := true }]
  else []) ++
  (if isImage n then
    [{ name := "src", type := "string", optional := false },
     { name := "alt", type := "string", optional := false }]
  else []) ++
  [{ name := "className", type := "string", optional := true }]

/-- `generatePropsInterface`. -/
def generatePropsInterface (props : List PropDef) (componentName : String) :
    String :=
  if props.isEmpty then ""
  else
    "interface " ++ componentName ++ "Props \x7b\n  " ++
    String.intercalate "\n  "
      (props.map (fun p =>
        p.name ++ (if p.optional then "?" else "") ++ ": " ++ p.type ++ ";")) ++
    "\n\x7d\n\n"

/-- `generateImports`: only the React import. -/
def generateImports (_n : FigmaNode) : String :=
  "import React from \"react\";"

/-- `generateJSXElement` (non-recursive; the children markup is an
argument, as in the source). -/
def generateJSXElement (n : FigmaNode) (className styles children : String)
    (depth : ℕ) : String :=
  let indent := String.join (List.replicate depth "  ")
  let tag := getHtmlTag n
  let attributes := generateAttributes n
  let classPart := if strTruthy className then
    " className=\"" ++ className ++ "\"" else ""
  let stylePart := if strTruthy styles then
    " style=\x7b" ++ styles ++ "\x7d" else ""
  if n.type == "TEXT" && strOptTruthy n.core.characters then
    indent ++ "<" ++ tag ++ classPart ++ stylePart ++ attributes ++ ">\n" ++
    indent ++ "  \x7b" ++
    (if strOptTruthy n.core.characters then
      "\"" ++ n.core.characters.getD "" ++ "\""
    else "children") ++ "\x7d\n" ++
    indent ++ "</" ++ tag ++ ">"
  else if strTruthy children then
    indent ++ "<" ++ tag ++ classPart ++ stylePart ++ attributes ++ ">\n" ++
    children ++ "\n" ++ indent ++ "</" ++ tag ++ ">"
  else
    indent ++ "<" ++ tag ++ classPart ++ stylePart ++ attributes ++ " />"

mutual

/-- `generateChildren`: children rendered at depth 2 in sibling order,
joined by newlines. -/
def generateChildren (opts : CodeGenerationOptions) : FigmaNode → String
  | .mk _ cs =>
    if cs.isEmpty then ""
    else String.intercalate "\n" (generateChildrenList opts cs)

/-- The mapped body of `generateChildren`. -/
def generateChildrenList (opts : CodeGenerationOptions) :
    List FigmaNode → List String
  | [] => []
  | child :: rest =>
    generateJSXElement child (generateClassName opts child)
      (generateInlineStyles opts child) (generateChildren opts child) 2 ::
    generateChildrenList opts rest

end

/-- `generateHTML`: a placeholder. -/
def generateHTML (_n : FigmaNode) (_className _styles _children : String) :
    String :=
  "<!-- HTML implementation -->"

/-- `generateJSX`.  In the `vue` case the source returns an identifier
that is never declared (a TypeScript error / runtime `ReferenceError`);
that branch is modelled as `""`, and the theorems that quantify over
configurations exclude it by hypothesis. -/
def generateJSX (cc : CustomCodeInputs) (opts : CodeGenerationOptions)
    (n : FigmaNode) (componentName : String) : String :=
  let props := extractProps n
  let children := generateChildren opts n
  let className := generateClassName opts n
  let styles := generateInlineStyles opts n
  match opts.framework with
  | .react =>
    let imports := generateImports n
    let propsInterface :=
      if opts.typescript then generatePropsInterface props componentName
      else ""
    let componentSignature :=
      if opts.typescript then
        "export const " ++ componentName ++ ": React.FC<" ++ componentName ++
          "Props> = (\x7b " ++
          String.intercalate ", " (props.map PropDef.name) ++ " \x7d)"
      else
        "export const " ++ componentName ++ " = (\x7b " ++
          String.intercalate ", " (props.map PropDef.name) ++ " \x7d)"
    let customJSXSection :=
      if strTruthy cc.jsx then
        "\n  // === EGYÉNI JSX KÓD ===\n  " ++ cc.jsx ++
          "\n  // === EGYÉNI JSX KÓD VÉGE ===\n"
      else ""
    imports ++ "\n" ++ propsInterface ++ "\n" ++ componentSignature ++
      " => \x7b" ++ customJSXSection ++ "\n  return (\n    " ++
      generateJSXElement n className styles children 1 ++
      "\n  );\n\x7d;\n\nexport default " ++ componentName ++ ";"
  | .html => generateHTML n className styles children
  | .vue => ""

/-- `convertToCSSRules`: one declaration per style entry, camelCase keys
kebab-cased, wrapped in a selector keyed by the lowercased name. -/
def convertToCSSRules (styles : List (String × String))
    (componentName : String) : String :=
  let cssRules := String.intercalate "\n"
    ((jsEntries styles).map
      (fun kv => "  " ++ camelToKebab kv.1 ++ ": " ++ kv.2 ++ ";"))
  "." ++ jsToLower componentName ++ " \x7b\n" ++ cssRules ++ "\n\x7d"

/-- `generateCSSModules`: the rules unchanged. -/
def generateCSSModules (cssRules : String) : String := cssRules

/-- The effect of `replace(/^\.[^{]+\{/, '')`: strip a leading
`.selector{` prefix when present. -/
def stripLeadingSelector (s : String) : String :=
  match s.data with
  | '.' :: rest =>
    let pre := rest.takeWhile (fun ch => ch != '\x7b')
    match rest.dropWhile (fun ch => ch != '\x7b') with
    | '\x7b' :: tail => if pre.isEmpty then s else String.mk tail
    | _ => s
  | _ => s

/-- The effect of `replace(/\}$/, '')`: strip one trailing `}`. -/
def stripTrailingBrace (s : String) : String :=
  match s.data.reverse with
  | '\x7d' :: rest => String.mk rest.reverse
  | _ => s

/-- `generateStyledComponents`. -/
def generateStyledComponents (cssRules : String) (componentName : String) :
    String :=
  "import styled from 'styled-components';\n\nexport const Styled" ++
    componentName ++ " = styled.div\x60\n" ++
    stripTrailingBrace (stripLeadingSelector cssRules) ++ "\n\x60;"

/-- `generatePlainCSS`: the rules unchanged. -/
def generatePlainCSS (cssRules : String) (_componentName : String) : String :=
  cssRules

/-- `generateTailwindCSS`. -/
def generateTailwindCSS (n : FigmaNode) : String :=
  let classes := generateTailwindClasses n
  "/* Figma alapú Tailwind osztályok: " ++ classes ++
    " */\n\n/* Komponens alapstílusok */\n." ++
    jsToLower (sanitizeComponentName n.name) ++ " \x7b\n  @apply " ++ classes ++
    ";\n\x7d"

/-- `generateCSS`: base dialect output, then the custom-CSS section, then
the advanced-CSS section. -/
def generateCSS (cc : CustomCodeInputs) (opts : CodeGenerationOptions)
    (n : FigmaNode) (componentName : String) : String :=
  let baseCSS :=
    if opts.styling == Styling.tailwind then generateTailwindCSS n
    else
      let styles := extractAllStyles n
      let cssRules := convertToCSSRules styles componentName
      if opts.styling == Styling.cssModules then generateCSSModules cssRules
      else if opts.styling == Styling.styledComponents then
        generateStyledComponents cssRules componentName
      else generatePlainCSS cssRules componentName
  let customCSSSection :=
    if strTruthy cc.css then
      "\n\n/* === EGYÉNI CSS STÍLUSOK === */\n" ++ cc.css ++
        "\n/* === EGYÉNI CSS STÍLUSOK VÉGE === */"
    else ""
  let advancedCSSSection :=
    if strTruthy cc.cssAdvanced then
      "\n\n/* === FEJLETT CSS++ FUNKCIÓK === */\n" ++ cc.cssAdvanced ++
        "\n/* === FEJLETT CSS++ FUNKCIÓK VÉGE === */"
    else ""
  baseCSS ++ customCSSSection ++ advancedCSSSection

/-- `generateTypeScript`. -/
def generateTypeScript (n : FigmaNode) (componentName : String) : String :=
  let props := extractProps n
  "export interface " ++ componentName ++ "Props \x7b\n  " ++
    String.intercalate "\n  "
      (props.map (fun p =>
        p.name ++ (if p.optional then "?" else "") ++ ": " ++ p.type ++ ";")) ++
    "\n\x7d\n\nexport type " ++ componentName ++ "Ref = HTMLDivElement;"

/-- `generateSingleComponent` (wall-clock timing modelled as `0`). -/
def generateSingleComponent (cc : CustomCodeInputs)
    (opts : CodeGenerationOptions) (n : FigmaNode) (componentName : String) :
    GeneratedComponent :=
  let sanitizedName := sanitizeComponentName componentName
  { id := n.id
    name := sanitizedName
    jsx := generateJSX cc opts n sanitizedName
    css := generateCSS cc opts n sanitizedName
    typescript :=
      if opts.typescript then some (generateTypeScript n sanitizedName)
      else none
    accessibility := analyzeAccessibility cc n
    responsive := analyzeResponsive n
    metadata := generateMetadata cc opts n 0 }

mutual

/-- `findNodeById`: pre-order search matching on node id, first match wins. -/
def findNodeById (idStr : String) : FigmaNode → Option FigmaNode
  | .mk c cs =>
    if c.id == idStr then some (.mk c cs) else findNodeByIdList idStr cs

/-- The child loop of `findNodeById`. -/
def findNodeByIdList (idStr : String) : List FigmaNode → Option FigmaNode
  | [] => none
  | x :: xs =>
    match findNodeById idStr x with
    | some found => some found
    | none => findNodeByIdList idStr xs

end

mutual

/-- `findMainFrames`: full pre-order traversal collecting every `FRAME`
node that has at least one child. -/
def findMainFrames : FigmaNode → List FigmaNode
  | .mk c cs =>
    (if c.type == "FRAME" && !cs.isEmpty then [FigmaNode.mk c cs] else []) ++
      findMainFramesList cs

/-- The child loop of `findMainFrames`. -/
def findMainFramesList : List FigmaNode → List FigmaNode
  | [] => []
  | x :: xs => findMainFrames x ++ findMainFramesList xs

end

/-- `generateComponents`: one component per named-components entry whose
`key` resolves to a node; if none resolves (or the table is empty), fall
back to the qualifying frames. -/
def generateComponents (cc : CustomCodeInputs) (opts : CodeGenerationOptions)
    (fd : FigmaApiResponse) : List GeneratedComponent :=
  let components := fd.components.foldl
    (fun acc kv =>
      match findNodeById kv.2.key fd.document with
      | some node => acc ++ [generateSingleComponent cc opts node kv.2.name]
      | none => acc)
    []
  if components.isEmpty then
    (findMainFrames fd.document).map
      (fun frame => generateSingleComponent cc opts frame frame.name)
  else components

end Advanced

namespace Hook

/-- The fields of `FigmaAnalysis` read by the hook's `generateCSS` (the
remaining analysis fields do not influence the emitted stylesheet). -/
structure FigmaAnalysis where
  componentType : String
  layoutType : String
deriving DecidableEq, Repr

/-- The slice of the hook's request data read by `generateCSS`: only the
file name, which is optional in the payload. -/
structure HookFigmaData where
  name : Option String := none
deriving DecidableEq, Repr

/-- `generateCSS` of the `useCodeGeneration` module: emit the base
template, append the `/* Custom CSS */` section when a partial fragment is
supplied, and let a non-empty `fullCss` override replace everything. -/
def generateCSS (figmaData : HookFigmaData) (analysis : FigmaAnalysis)
    (customCss fullCss : String) : String :=
  let componentName := match figmaData.name with
    | some s =>
        let t := jsToLower (filterAlnum s)
        if t == "" then "component" else t
    | none => "component"
  let css :=
    "/* Generated CSS for " ++ figmaData.name.getD "undefined" ++
    " */\n:root \x7b\n  --" ++ componentName ++
    "-primary: hsl(221.2 83.2% 53.3%);\n  --" ++ componentName ++
    "-primary-foreground: hsl(210 40% 98%);\n  --" ++ componentName ++
    "-secondary: hsl(210 40% 96%);\n  --" ++ componentName ++
    "-border: hsl(214.3 31.8% 91.4%);\n  --" ++ componentName ++
    "-radius: 0.5rem;\n\x7d\n\n." ++ componentName ++
    "-container \x7b\n  position: relative;\n  width: 100%;\n  " ++
    "max-width: 32rem;\n  margin: 0 auto;\n  padding: 1.5rem;\n  " ++
    "background: var(--" ++ componentName ++
    "-secondary);\n  border: 1px solid var(--" ++ componentName ++
    "-border);\n  border-radius: var(--" ++ componentName ++
    "-radius);\n  box-shadow: 0 1px 3px 0 rgba(0, 0, 0, 0.1);\n\x7d\n\n." ++
    componentName ++ "-element \x7b\n  display: " ++
    (if strIncludes analysis.layoutType "flexbox" then "flex" else "block") ++
    ";\n  align-items: center;\n  justify-content: center;\n  " ++
    "border-radius: calc(var(--" ++ componentName ++
    "-radius) - 2px);\n  font-weight: 500;\n  " ++
    "transition: all 0.2s cubic-bezier(0.4, 0, 0.2, 1);\n\x7d\n\n" ++
    (if analysis.componentType == "interactive" then
      "\n." ++ componentName ++
      "-element:hover \x7b\n  transform: translateY(-1px);\n  " ++
      "box-shadow: 0 4px 12px rgba(0, 0, 0, 0.15);\n\x7d\n\n." ++
      componentName ++
      "-element:focus-visible \x7b\n  outline: 2px solid var(--" ++
      componentName ++ "-primary);\n  outline-offset: 2px;\n\x7d"
    else "") ++
    "\n\n@keyframes " ++ componentName ++
    "-fade-in \x7b\n  from \x7b opacity: 0; transform: " ++
    "translateY(-0.5rem); \x7d\n  to \x7b opacity: 1; transform: " ++
    "translateY(0); \x7d\n\x7d\n\n." ++ componentName ++
    "-animate-in \x7b\n  animation: " ++ componentName ++
    "-fade-in 0.3s ease-out;\n\x7d"
  let css :=
    if strTruthy customCss then
      css ++ "\n\n/* Custom CSS */\n" ++ customCss
    else css
  let css := if strTruthy fullCss then fullCss else css
  css

end Hook

namespace Utils

/-- The configuration record accepted by `CodeGenerator.generateComponent`. -/
structure UtilsConfig where
  framework : Framework
  styling : Styling
  typescript : Bool
deriving DecidableEq, Repr

/-- The two instance caches of a `CodeGenerator` object.  They are plain
instance fields in the source and are never cleared, so they persist for
the lifetime of the object, across calls. -/
structure GenState where
  componentCache : List (String × GeneratedComponent) := []
  fragmentCache : List (String × String) := []
deriving DecidableEq, Repr

/-- A fresh `CodeGenerator`: both caches empty. -/
def GenState.fresh : GenState := {}

/-- The result of `getPropsInterface`. -/
structure PropsDef where
  props : List Advanced.PropDef
  interfaceString : String
deriving DecidableEq, Repr

/-- `getPropsInterface`. -/
def getPropsInterface (n : FigmaNode) : PropsDef :=
  let props :=
    (if n.type == "TEXT" && strOptTruthy n.core.characters then
      [{ name := "text", type := "string",
         optional := false : Advanced.PropDef }]
    else []) ++
    (if n.core.fills.any (fun f => f.type == "IMAGE") then
      [{ name := "src", type := "string",
         optional := false : Advanced.PropDef },
       { name := "alt", type := "string",
         optional := false : Advanced.PropDef }]
    else []) ++
    [{ name := "className", type := "string",
       optional := true : Advanced.PropDef }]
  let componentName := Advanced.sanitizeComponentName n.name
  let fields := String.intercalate "\n"
    (props.map (fun p =>
      "  " ++ p.name ++ (if p.optional then "?" else "") ++ ": " ++
        p.type ++ ";"))
  { props := props
    interfaceString :=
      "interface " ++ componentName ++ "Props \x7b\n" ++ fields ++
        "\n\x7d\n" }

/-- The `htmlTagMap` lookup with its `div` default. -/
def getHtmlTag (n : FigmaNode) : String :=
  if n.type == "TEXT" then "span"
  else if n.type == "FRAME" then "section"
  else if n.type == "RECTANGLE" then "div"
  else if n.type == "BUTTON" then "button"
  else if n.type == "LINK" then "a"
  else "div"

/-- `generateAriaAttributes`. -/
def generateAriaAttributes (n : FigmaNode) : String :=
  let name := (jsToLower n.name)
  if strIncludes name "header" then " role=\"banner\""
  else if strIncludes name "footer" then " role=\"contentinfo\""
  else ""

/-- `extractStyles`: width/height, background colour (alpha defaulting to
1 by destructuring) and border radius. -/
def extractStyles (n : FigmaNode) : List (String × String) :=
  let c := n.core
  (match c.absoluteBoundingBox with
    | some bb =>
        [("width", qToJsString bb.width ++ "px"),
         ("height", qToJsString bb.height ++ "px")]
    | none => []) ++
  (match c.backgroundColor with
    | some col =>
        [("backgroundColor",
          "rgba(" ++ toString (jsRound (col.r * 255)) ++ ", " ++
            toString (jsRound (col.g * 255)) ++ ", " ++
            toString (jsRound (col.b * 255)) ++ ", " ++
            qToJsString (col.a.getD 1) ++ ")")]
    | none => []) ++
  (if numTruthy c.cornerRadius then
    [("borderRadius", qToJsString (c.cornerRadius.getD 0) ++ "px")]
  else [])

/-- `convertToTailwind`. -/
def convertToTailwind (styles : List (String × String)) (n : FigmaNode) :
    String :=
  let c := n.core
  let classes : List String :=
    (if c.layoutMode == some "HORIZONTAL" then ["flex", "flex-row"]
     else []) ++
    (if c.layoutMode == some "VERTICAL" then ["flex", "flex-col"] else []) ++
    (if numTruthy c.itemSpacing then
      ["gap-" ++ toString (jsRound ((c.itemSpacing.getD 0) / 4))] else []) ++
    (if numTruthy c.paddingLeft then
      ["pl-" ++ toString (jsRound ((c.paddingLeft.getD 0) / 4))] else []) ++
    (if numTruthy c.paddingRight then
      ["pr-" ++ toString (jsRound ((c.paddingRight.getD 0) / 4))] else []) ++
    (if numTruthy c.paddingTop then
      ["pt-" ++ toString (jsRound ((c.paddingTop.getD 0) / 4))] else []) ++
    (if numTruthy c.paddingBottom then
      ["pb-" ++ toString (jsRound ((c.paddingBottom.getD 0) / 4))] else []) ++
    (if numTruthy c.cornerRadius then ["rounded"] else []) ++
    (if (jsGet styles "backgroundColor").isSome then ["bg-gray-500"]
     else []) ++
    (match c.style with
      | some st =>
          (if st.fontSize != 0 then
            ["text-" ++ toString (jsRound (st.fontSize / 4))] else []) ++
          (if numTruthy st.fontWeight then
            ["font-" ++ qToJsString (st.fontWeight.getD 0)] else []) ++
          (match st.textAlignHorizontal with
            | some al => if al ≠ "" then ["text-" ++ jsToLower al] else []
            | none => [])
      | none => [])
  String.intercalate " " classes

/-- `convertToCSS`: a fixed `.component` selector, one declaration per
entry, keys left as-is. -/
def convertToCSS (styles : List (String × String)) (_styling : String) :
    String :=
  let rules := String.intercalate "\n"
    ((jsEntries styles).map (fun kv => "  " ++ kv.1 ++ ": " ++ kv.2 ++ ";"))
  ".component \x7b\n" ++ rules ++ "\n\x7d"

/-- `generateCSS`. -/
def generateCSS (n : FigmaNode) (styling : Styling) : String :=
  let styles := extractStyles n
  if styling == Styling.tailwind then convertToTailwind styles n
  else convertToCSS styles styling.str

/-- `generateClassName`, called by `generateJSXFragment` but not defined
in the source class: modelled after the advanced generator's
`generateClassName` (the carried-over helper convention of the source's
trailing comment), with the styling dialect passed explicitly. -/
def generateClassName (n : FigmaNode) (styling : Styling) : String :=
  if styling == Styling.tailwind then convertToTailwind (extractStyles n) n
  else String.mk
    ((collapseWs (jsToLower n.name)).data.filter Advanced.isClassNameChar)

mutual

/-- `generateJSXFragment`: recursive fragment synthesis memoized in the
fragment cache under the key `id|styling`; the cache is threaded
explicitly (it is a mutable instance field in the source). -/
def generateJSXFragment (cfg : UtilsConfig)
    (cache : List (String × String)) :
    FigmaNode → String × List (String × String)
  | .mk c cs =>
    let n := FigmaNode.mk c cs
    let cacheKey := c.id ++ "|" ++ cfg.styling.str
    match alGet cache cacheKey with
    | some cached => (cached, cache)
    | none =>
      let tag := getHtmlTag n
      let className := generateClassName n cfg.styling
      let aria := generateAriaAttributes n
      if tag == "img" then
        let fragment := "<img src=\x7bsrc\x7d alt=\x7balt\x7d className=\"" ++
          className ++ "\"" ++ aria ++ " />"
        (fragment, alSet cache cacheKey fragment)
      else
        let (childFrags, cache') := generateJSXFragmentList cfg cache cs
        let children := String.intercalate "\n      " childFrags
        let inner := if c.type == "TEXT" then "\x7btext\x7d" else children
        let fragment := "<" ++ tag ++ " className=\"" ++ className ++ "\"" ++
          aria ++ ">\n      " ++ inner ++ "\n    </" ++ tag ++ ">"
        (fragment, alSet cache' cacheKey fragment)

/-- The child loop of `generateJSXFragment`, threading the cache left to
right as the source's `map` does. -/
def generateJSXFragmentList (cfg : UtilsConfig)
    (cache : List (String × String)) :
    List FigmaNode → List String × List (String × String)
  | [] => ([], cache)
  | x :: xs =>
    let (fx, cache₁) := generateJSXFragment cfg cache x
    let (fxs, cache₂) := generateJSXFragmentList cfg cache₁ xs
    (fx :: fxs, cache₂)

end

/-- `generateJSX` (React-only in the source). -/
def generateJSX (cfg : UtilsConfig) (cache : List (String × String))
    (n : FigmaNode) (propsDef : PropsDef) :
    String × List (String × String) :=
  let componentName := Advanced.sanitizeComponentName n.name
  let propNames := String.intercalate ", "
    (propsDef.props.map Advanced.PropDef.name)
  let (fragment, cache') := generateJSXFragment cfg cache n
  ((if cfg.typescript then propsDef.interfaceString else "") ++
    "\nexport const " ++ componentName ++
    (if cfg.typescript then ": React.FC<" ++ componentName ++ "Props>"
     else "") ++
    " = (\x7b " ++ propNames ++ " \x7d) => \x7b\n  return (\n    " ++
    fragment ++ "\n  );\n\x7d;", cache')

/-- `collectImports`. -/
def collectImports (jsxBody : String) (framework : Framework) :
    List String :=
  (if framework == Framework.react then ["import React from 'react';"]
   else []) ++
  (if strIncludes jsxBody "src=\x7b" && strIncludes jsxBody "alt=\x7b" then
    ["import Image from 'next/image';"]
  else [])

/-- `analyzeAccessibility` of the utils generator: −20 for an image-fill
rectangle, contrast/interaction advice as suggestions; the returned score
is not clamped here. -/
def analyzeAccessibility (n : FigmaNode) : AccessibilityReport :=
  let issues : List AccessibilityIssue := []
  let suggestions : List String := []
  let score : ℤ := 100
  let (issues, score) :=
    if n.type == "RECTANGLE" &&
        n.core.fills.any (fun f => f.type == "IMAGE") then
      (issues ++ [{ type := "error", message := "Image missing alt text",
                    element := n.name,
                    fix := "Add alt attribute with descriptive text" }],
       score - 20)
    else (issues, score)
  let suggestions :=
    if n.type == "TEXT" then
      suggestions ++ ["Verify text contrast meets WCAG AA standards"]
    else suggestions
  let suggestions :=
    if Advanced.isInteractiveElement n then
      suggestions ++ ["Ensure keyboard navigation support",
                      "Add ARIA labels for screen readers"]
    else suggestions
  { score := score
    issues := issues
    suggestions := suggestions
    wcagCompliance :=
      if score ≥ 80 then "AA" else if score ≥ 60 then "A" else "Non-compliant" }

/-- `analyzeResponsive` of the utils generator (same optional-chain
semantics as the advanced one). -/
def analyzeResponsive (n : FigmaNode) : ResponsiveBreakpoints :=
  let hasFlex :=
    n.core.layoutMode == some "HORIZONTAL" ||
      n.core.layoutMode == some "VERTICAL"
  let hasConstraints :=
    (n.core.constraints.map Constraints.horizontal) != some "LEFT" ||
      (n.core.constraints.map Constraints.vertical) != some "TOP"
  { mobile := Advanced.generateResponsiveCSS n "mobile"
    tablet := Advanced.generateResponsiveCSS n "tablet"
    desktop := Advanced.generateResponsiveCSS n "desktop"
    hasResponsiveDesign := hasFlex || hasConstraints }

/-- `generateMetadata` of the utils generator.  Its helpers
(`detectComponentType`, `calculateComplexity`, `estimateAccuracy`,
`extractDependencies`) are, per the source's closing comment, carried over
unchanged from the advanced generator; this class has no custom-code
field, so those helpers see the empty custom-code record, and
`extractDependencies` sees the call's configuration. -/
def generateMetadata (cfg : UtilsConfig) (n : FigmaNode) :
    ComponentMetadata :=
  Advanced.generateMetadata {}
    { framework := cfg.framework, styling := cfg.styling,
      typescript := cfg.typescript } n 0

/-- `generateComponent`: validate (the schema parse is the identity on
well-typed nodes), return the cached component when the node id was
already generated, otherwise synthesize and cache.  The caches are the
object state, threaded explicitly. -/
def generateComponent (st : GenState) (n : FigmaNode) (cfg : UtilsConfig) :
    GeneratedComponent × GenState :=
  match alGet st.componentCache n.id with
  | some cached => (cached, st)
  | none =>
    let propsDef := getPropsInterface n
    let (jsxBody, frag') := generateJSX cfg st.fragmentCache n propsDef
    let imports := collectImports jsxBody cfg.framework
    let finalJsx := String.intercalate "\n" imports ++ "\n\n" ++ jsxBody
    let css := generateCSS n cfg.styling
    let accessibility := analyzeAccessibility n
    let responsive := analyzeResponsive n
    let metadata := generateMetadata cfg n
    let component : GeneratedComponent :=
      { id := n.id
        name := Advanced.sanitizeComponentName n.name
        jsx := finalJsx
        css := css
        typescript :=
          if cfg.typescript then some propsDef.interfaceString else none
        accessibility := accessibility
        responsive := responsive
        metadata := metadata }
    (component,
     { componentCache := alSet st.componentCache n.id component
       fragmentCache := frag' })

end Utils

mutual

/-- Specification-side pre-order enumeration of a node tree: the node
itself, then its children's subtrees in sibling order. -/
def preorder : FigmaNode → List FigmaNode
  | .mk c cs => FigmaNode.mk c cs :: preorderList cs

/-- Pre-order enumeration of a forest. -/
def preorderList : List FigmaNode → List FigmaNode
  | [] => []
  | x :: xs => preorder x ++ preorderList xs

end

/-- Specification-side reading of "the node has a non-none layout axis":
`layoutMode` is `HORIZONTAL` or `VERTICAL`. -/
def HasNonNoneLayoutAxis (n : FigmaNode) : Prop :=
  n.core.layoutMode = some "HORIZONTAL" ∨ n.core.layoutMode = some "VERTICAL"

/-- Specification-side reading of "its constraints deviate from the
default top/left anchoring": a constraints record is present and differs
from `LEFT`/`TOP`.  (A node with no constraints record has nothing
deviating.) -/
def ConstraintsDeviate (n : FigmaNode) : Prop :=
  ∃ c, n.core.constraints = some c ∧
    (c.horizontal ≠ "LEFT" ∨ c.vertical ≠ "TOP")

/-- Specification-side WCAG level of a score, per the fixed thresholds:
80 and above is AA, 60 to 79 is A, below 60 is Non-compliant. -/
def wcagOfScore (score : ℤ) : String :=
  if score ≥ 80 then "AA" else if score ≥ 60 then "A" else "Non-compliant"

/-- The estimated-accuracy formula exactly as the claim states it: base
85, +10 if the complexity classifies as simple, −5 if more than five
children, +5 for button/text/card, clamped to [70,100] — with no
custom-code term. -/
def claimedAccuracy (cc : CustomCodeInputs) (n : FigmaNode) : ℤ :=
  min 100 (max 70 (85 +
    (if Advanced.calculateComplexity cc n = "simple" then 10 else 0) +
    (if 5 < n.children.length then -5 else 0) +
    (if Advanced.detectComponentType n = "button" ∨
        Advanced.detectComponentType n = "text" ∨
        Advanced.detectComponentType n = "card" then 5 else 0)))

/-- The amended estimated-accuracy formula: the claim's terms plus +5
when any custom code fragment is supplied. -/
def amendedAccuracy (cc : CustomCodeInputs) (n : FigmaNode) : ℤ :=
  min 100 (max 70 (85 +
    (if Advanced.calculateComplexity cc n = "simple" then 10 else 0) +
    (if 5 < n.children.length then -5 else 0) +
    (if Advanced.detectComponentType n = "button" ∨
        Advanced.detectComponentType n = "text" ∨
        Advanced.detectComponentType n = "card" then 5 else 0) +
    (if cc.jsx ≠ "" ∨ cc.css ≠ "" ∨ cc.cssAdvanced ≠ "" then 5 else 0)))

/-- A node with every optional attribute absent (a bare frame). -/
def plainNode : FigmaNode := .mk {} []

/-- A three-node document: a `DOCUMENT` root, a `FRAME` child `n1`, and a
`TEXT` grandchild `t1`. -/
def tinyDoc : FigmaNode :=
  .mk { id := "root", name := "Doc", type := "DOCUMENT" }
    [.mk { id := "n1", name := "Box", type := "FRAME" }
      [.mk { id := "t1", name := "Hello Title", type := "TEXT",
             characters := some "Hello" } []]]

/-- React + plain-css options, no TypeScript. -/
def optsP : CodeGenerationOptions :=
  { framework := .react, styling := .plainCss, typescript := false }

/-- A file whose named-components table has two entries resolving to the
same node id `n1`. -/
def fdC2 : FigmaApiResponse :=
  { document := tinyDoc
    components := [("k1", { key := "n1", name := "A" }),
                   ("k2", { key := "n1", name := "B" })] }

/-- A file with an empty named-components table. -/
def fdEmptyTable : FigmaApiResponse :=
  { document := tinyDoc, components := [] }

/-- A file whose table is non-empty, whose map key `n1` is an existing
node id, but whose entry's `key` field `zzz` matches no node id. -/
def fd10 : FigmaApiResponse :=
  { document := tinyDoc
    components := [("n1", { key := "zzz", name := "Ghost" })] }

/-- A custom-code record with a non-empty JSX fragment. -/
def ccFull : CustomCodeInputs := { jsx := "<span>custom</span>" }

/-- A childless frame named `box` (no keyword, no effects, no fills). -/
def nodeBox : FigmaNode :=
  .mk { id := "b1", name := "box", type := "FRAME" } []

/-- A node with the claimed red background and no fills. -/
def node7 : FigmaNode :=
  .mk { id := "c7", name := "RedBox", type := "RECTANGLE",
        backgroundColor := some { r := 1, g := 0, b := 0, a := some 1 } } []

/-- Hook request data with a file name. -/
def hookData6 : Hook.HookFigmaData := { name := some "My Card" }

/-- A hook analysis record. -/
def analysis6 : Hook.FigmaAnalysis :=
  { componentType := "interactive", layoutType := "flexbox-row" }

/-- First request's node: id `n1`, name `A`. -/
def nodeA8 : FigmaNode := .mk { id := "n1", name := "A", type := "FRAME" } []

/-- Second request's node: the same id `n1`, but name `B`. -/
def nodeB8 : FigmaNode := .mk { id := "n1", name := "B", type := "FRAME" } []

/-- Utils generator configuration for the cache-scoping evaluation. -/
def cfg8 : Utils.UtilsConfig :=
  { framework := .react, styling := .plainCss, typescript := false }

/-- C1 (counterexample): a bare node with no layout axis and no
constraints record — hence nothing deviating from the default top/left
anchoring — nevertheless yields `hasResponsiveDesign = true`, because the
optional chain compares `undefined` against `LEFT`.  This refutes the
claimed "if and only if". -/
theorem c1_counterexample :
    (Advanced.analyzeResponsive plainNode).hasResponsiveDesign = true ∧
      ¬ HasNonNoneLayoutAxis plainNode ∧ ¬ ConstraintsDeviate plainNode := by
  refine ⟨rfl, ?_, ?_⟩ <;>
    simp [HasNonNoneLayoutAxis, ConstraintsDeviate, plainNode, FigmaNode.core]

/-- C1 (amended): `hasResponsiveDesign` is true iff the node has a
non-none layout axis, or its constraints record is absent, or a present
constraints record deviates from the default LEFT/TOP anchoring. -/
theorem c1_amended_responsive_iff (n : FigmaNode) :
    (Advanced.analyzeResponsive n).hasResponsiveDesign = true ↔
      (HasNonNoneLayoutAxis n ∨ n.core.constraints = none ∨
        ConstraintsDeviate n) := by
  unfold Advanced.analyzeResponsive HasNonNoneLayoutAxis ConstraintsDeviate
  cases hc : n.core.constraints with
  | none => simp [hc]
  | some c => simp [hc]

/-- C3: for every custom-code record and every design node the
accessibility score lies in `[0,100]`, and the WCAG compliance label is
exactly the fixed-threshold function of the returned score
(≥80 → AA, ≥60 → A, else Non-compliant). -/
theorem c3_accessibility_score_range_wcag (cc : CustomCodeInputs)
    (n : FigmaNode) :
    0 ≤ (Advanced.analyzeAccessibility cc n).score ∧
      (Advanced.analyzeAccessibility cc n).score ≤ 100 ∧
      (Advanced.analyzeAccessibility cc n).wcagCompliance =
        wcagOfScore (Advanced.analyzeAccessibility cc n).score := by
  unfold Advanced.analyzeAccessibility wcagOfScore
    Advanced.calculateContrastRatio
  by_cases h : Advanced.isImage n = true <;>
    by_cases h2 : (n.type == "TEXT") = true <;>
    simp [h, h2] <;> norm_num

/-- C4 (counterexample): with a non-empty custom JSX fragment supplied,
the childless frame `box` gets estimated accuracy 100 — the source adds a
+5 custom-code bonus — while the claim's formula (85 + 10 for simple
complexity, clamped) yields 95. -/
theorem c4_counterexample :
    Advanced.estimateAccuracy ccFull nodeBox ≠
        claimedAccuracy ccFull nodeBox ∧
      Advanced.estimateAccuracy ccFull nodeBox = 100 ∧
      claimedAccuracy ccFull nodeBox = 95 := by
  refine ⟨?_, rfl, rfl⟩
  decide

/-- C4 (amended): `estimateAccuracy` equals the claim's formula extended
with a +5 term when any custom code fragment is supplied (the complexity
classifier also counts custom code), and the result always lies in
`[70,100]`. -/
theorem c4_amended_estimated_accuracy (cc : CustomCodeInputs)
    (n : FigmaNode) :
    Advanced.estimateAccuracy cc n = amendedAccuracy cc n ∧
      70 ≤ Advanced.estimateAccuracy cc n ∧
      Advanced.estimateAccuracy cc n ≤ 100 := by
  have heq : Advanced.estimateAccuracy cc n = amendedAccuracy cc n := by
    unfold Advanced.estimateAccuracy amendedAccuracy
    simp only [List.contains_cons, List.contains_nil, beq_iff_eq,
      Bool.or_eq_true, Bool.or_false, decide_eq_true_eq, strTruthy, ne_eq,
      or_assoc]
    split_ifs <;> omega
  refine ⟨heq, ?_, ?_⟩ <;> rw [heq] <;> unfold amendedAccuracy <;> omega

/-- C9: the contrast stub returns exactly 4.5 and the check is a strict
`< 4.5`, so the low-contrast branch never fires: the score is 85 exactly
when the node is an image (alt-text penalty) and 100 otherwise, and the
compliance label is always `AA`. -/
theorem c9_contrast_stub_unreachable (cc : CustomCodeInputs)
    (n : FigmaNode) :
    Advanced.calculateContrastRatio n = 4.5 ∧
      (Advanced.analyzeAccessibility cc n).score =
        (if Advanced.isImage n then 85 else 100) ∧
      (Advanced.analyzeAccessibility cc n).wcagCompliance = "AA" := by
  refine ⟨by norm_num [Advanced.calculateContrastRatio], ?_, ?_⟩ <;>
    unfold Advanced.analyzeAccessibility Advanced.calculateContrastRatio <;>
    by_cases h : Advanced.isImage n = true <;>
    by_cases h2 : (n.type == "TEXT") = true <;>
    simp [h, h2] <;> norm_num

/-- Reading a key back from a `Map` immediately after setting it. -/
theorem alGet_alSet_self {α : Type} (m : List (String × α)) (k : String)
    (v : α) : alGet (alSet m k v) k = some v := by
  induction m with
  | nil => simp [alSet, alGet]
  | cons hd tl ih =>
    obtain ⟨k', v'⟩ := hd
    by_cases h : (k' == k) = true <;> simp [alSet, alGet, h, ih]

/-- C2 (counterexample): in `fdC2` both named-components entries carry the
key `n1`, which resolves to the same node — and the advanced walker emits
two `GeneratedComponent`s with id `n1`, not one: its table walk performs
no memoization. -/
theorem c2_counterexample :
    (Advanced.generateComponents {} optsP fdC2).map GeneratedComponent.id =
        ["n1", "n1"] ∧
      fdC2.components.map (fun kv => kv.2.key) = ["n1", "n1"] := ⟨rfl, rfl⟩

/-- C2 (amended): memoization by node id lives in the utils
`CodeGenerator.generateComponent`: a second call on the same generator
with a node of an already-generated id returns the first call's cached
component. -/
theorem c2_amended_utils_memoization (st : Utils.GenState)
    (n₁ n₂ : FigmaNode) (cfg : Utils.UtilsConfig) (h : n₂.id = n₁.id) :
    (Utils.generateComponent (Utils.generateComponent st n₁ cfg).2 n₂ cfg).1 =
      (Utils.generateComponent st n₁ cfg).1 := by
  unfold Utils.generateComponent
  rw [h]
  cases hc : alGet st.componentCache n₁.id with
  | some c => simp [hc]
  | none => simp [hc, alGet_alSet_self]

/-- C2 (witness): the memoization theorem applied to two concrete nodes
sharing the id `n1` on a fresh generator. -/
theorem c2_amended_utils_memoization_witness :
    nodeB8.id = nodeA8.id ∧
      (Utils.generateComponent
          (Utils.generateComponent Utils.GenState.fresh nodeA8 cfg8).2
          nodeB8 cfg8).1 =
        (Utils.generateComponent Utils.GenState.fresh nodeA8 cfg8).1 :=
  ⟨rfl, c2_amended_utils_memoization Utils.GenState.fresh nodeA8 nodeB8 cfg8 rfl⟩

/-- C8: the caches are object-scoped, not request-scoped.  On one
generator object, generating node `n1` named `A` and then a *different*
node with the same id `n1` named `B` returns the stale `A` component,
while a fresh generator returns the `B` component — the first call's
cache leaks into the second call's output. -/
theorem c8_cache_leak_eval :
    (Utils.generateComponent
        (Utils.generateComponent Utils.GenState.fresh nodeA8 cfg8).2
        nodeB8 cfg8).1.name = "A" ∧
      (Utils.generateComponent Utils.GenState.fresh nodeB8 cfg8).1.name = "B" :=
  ⟨rfl, rfl⟩

mutual

/-- `findMainFrames` is exactly the pre-order enumeration filtered to
frames with at least one child. -/
theorem findMainFrames_eq_filter (n : FigmaNode) :
    Advanced.findMainFrames n =
      (preorder n).filter
        (fun m => m.type == "FRAME" && !m.children.isEmpty) := by
  cases n with
  | mk c cs =>
    by_cases h : (c.type == "FRAME" && !cs.isEmpty) = true <;>
      simp [Advanced.findMainFrames, preorder, List.filter_cons,
        findMainFramesList_eq_filter cs, FigmaNode.type, FigmaNode.core,
        FigmaNode.children, h]

/-- Forest version of `findMainFrames_eq_filter`. -/
theorem findMainFramesList_eq_filter (l : List FigmaNode) :
    Advanced.findMainFramesList l =
      (preorderList l).filter
        (fun m => m.type == "FRAME" && !m.children.isEmpty) := by
  cases l with
  | nil => rfl
  | cons x xs =>
    simp [Advanced.findMainFramesList, preorderList, List.filter_append,
      findMainFrames_eq_filter x, findMainFramesList_eq_filter xs]

end

/-- C5: with an empty named-components table the walker's output ids are
exactly the ids of the `FRAME` nodes with at least one child, in pre-order
of the whole tree — childless frames excluded, no early termination. -/
theorem c5_walker_frame_fallback (cc : CustomCodeInputs)
    (opts : CodeGenerationOptions) (fd : FigmaApiResponse)
    (_hfw : opts.framework ≠ Framework.vue) (h : fd.components = []) :
    (Advanced.generateComponents cc opts fd).map GeneratedComponent.id =
      ((preorder fd.document).filter
        (fun m => m.type == "FRAME" && !m.children.isEmpty)).map
        FigmaNode.id := by
  unfold Advanced.generateComponents
  rw [h]
  simp [findMainFrames_eq_filter, List.map_map, Function.comp,
    Advanced.generateSingleComponent]

/-- C5 (witness): the fallback theorem applied to a concrete document —
one qualifying frame `n1` under a `DOCUMENT` root. -/
theorem c5_walker_frame_fallback_witness :
    optsP.framework ≠ Framework.vue ∧
      fdEmptyTable.components = [] ∧
      (Advanced.generateComponents {} optsP fdEmptyTable).map
          GeneratedComponent.id =
        ((preorder fdEmptyTable.document).filter
          (fun m => m.type == "FRAME" && !m.children.isEmpty)).map
          FigmaNode.id :=
  ⟨by decide, rfl,
    c5_walker_frame_fallback {} optsP fdEmptyTable (by decide) rfl⟩

mutual

/-- When no node in the tree has the searched id, `findNodeById` fails. -/
theorem findNodeById_eq_none (idStr : String) (n : FigmaNode)
    (h : ∀ m ∈ preorder n, m.id ≠ idStr) :
    Advanced.findNodeById idStr n = none := by
  cases n with
  | mk c cs =>
    have hc : ¬ c.id = idStr := by
      have hm := h (FigmaNode.mk c cs)
        (by rw [preorder]; exact List.mem_cons_self _ _)
      simpa [FigmaNode.id, FigmaNode.core] using hm
    have hrest : ∀ m ∈ preorderList cs, m.id ≠ idStr := fun m hm =>
      h m (by rw [preorder]; exact List.mem_cons_of_mem _ hm)
    rw [Advanced.findNodeById]
    simp [hc, findNodeByIdList_eq_none idStr cs hrest]

/-- Forest version of `findNodeById_eq_none`. -/
theorem findNodeByIdList_eq_none (idStr : String) (l : List FigmaNode)
    (h : ∀ m ∈ preorderList l, m.id ≠ idStr) :
    Advanced.findNodeByIdList idStr l = none := by
  cases l with
  | nil => rfl
  | cons x xs =>
    rw [Advanced.findNodeByIdList,
      findNodeById_eq_none idStr x (fun m hm =>
        h m (by rw [preorderList]; exact List.mem_append_left _ hm))]
    exact findNodeByIdList_eq_none idStr xs (fun m hm =>
      h m (by rw [preorderList]; exact List.mem_append_right _ hm))

end

/-- The component-table fold leaves its accumulator unchanged when every
entry's key fails to resolve. -/
theorem generate_fold_skip (cc : CustomCodeInputs)
    (opts : CodeGenerationOptions) (doc : FigmaNode)
    (entries : List (String × FigmaComponent))
    (h : ∀ e ∈ entries, Advanced.findNodeById e.2.key doc = none)
    (acc : List GeneratedComponent) :
    entries.foldl
      (fun acc kv =>
        match Advanced.findNodeById kv.2.key doc with
        | some node =>
            acc ++ [Advanced.generateSingleComponent cc opts node kv.2.name]
        | none => acc) acc = acc := by
  induction entries generalizing acc with
  | nil => rfl
  | cons e rest ih =>
    rw [List.foldl_cons]
    have he := h e (List.mem_cons_self _ _)
    simp only [he]
    exact ih (fun x hx => h x (List.mem_cons_of_mem _ hx)) acc

/-- C10: resolution matches each table entry's `key` field against node
ids; when no node id equals any entry's key field, every entry fails to
resolve and the walker uses the FRAME fallback even though the table is
non-empty. -/
theorem c10_key_resolution_fallback (cc : CustomCodeInputs)
    (opts : CodeGenerationOptions) (fd : FigmaApiResponse)
    (_hfw : opts.framework ≠ Framework.vue)
    (hkeys : ∀ e ∈ fd.components, ∀ m ∈ preorder fd.document, m.id ≠ e.2.key)
    (_hne : fd.components ≠ []) :
    Advanced.generateComponents cc opts fd =
      (Advanced.findMainFrames fd.document).map
        (fun frame =>
          Advanced.generateSingleComponent cc opts frame frame.name) := by
  unfold Advanced.generateComponents
  rw [generate_fold_skip cc opts fd.document fd.components
    (fun e he => findNodeById_eq_none e.2.key fd.document (hkeys e he)) []]
  rfl

/-- C10 (witness): in `fd10` the table's *map key* `n1` is a real node id
but the entry's `key` field `zzz` is not, so the fallback fires. -/
theorem c10_key_resolution_fallback_witness :
    optsP.framework ≠ Framework.vue ∧
      (∀ e ∈ fd10.components, ∀ m ∈ preorder fd10.document, m.id ≠ e.2.key) ∧
      fd10.components ≠ [] ∧
      Advanced.generateComponents {} optsP fd10 =
        (Advanced.findMainFrames fd10.document).map
          (fun frame =>
            Advanced.generateSingleComponent {} optsP frame frame.name) :=
  ⟨by decide, by decide, by decide,
    c10_key_resolution_fallback {} optsP fd10 (by decide) (by decide)
      (by decide)⟩

/-- C6: whenever a non-empty full CSS override is supplied, the emitted
stylesheet is exactly that override — the base template and any appended
custom-CSS fragment are replaced wholesale. -/
theorem c6_full_css_override_replaces (figd : Hook.HookFigmaData)
    (analysis : Hook.FigmaAnalysis) (customCss fullCss : String)
    (h : fullCss ≠ "") :
    Hook.generateCSS figd analysis customCss fullCss = fullCss := by
  unfold Hook.generateCSS
  simp [strTruthy, h]

/-- C6 (witness): the override theorem applied to concrete request data
with both a partial custom fragment and a full override supplied. -/
theorem c6_full_css_override_replaces_witness :
    ("body \x7b margin: 0 \x7d" : String) ≠ "" ∧
      Hook.generateCSS hookData6 analysis6 ".custom \x7b color: red \x7d"
          "body \x7b margin: 0 \x7d" =
        "body \x7b margin: 0 \x7d" :=
  ⟨by decide,
    c6_full_css_override_replaces hookData6 analysis6
      ".custom \x7b color: red \x7d" "body \x7b margin: 0 \x7d" (by decide)⟩

/-- `jsGet` over an append when the right part holds the key. -/
theorem jsGet_append_some {l₁ l₂ : List (String × String)} {k v : String}
    (h : jsGet l₂ k = some v) : jsGet (l₁ ++ l₂) k = some v := by
  induction l₁ with
  | nil => simpa using h
  | cons hd tl ih => obtain ⟨k', v'⟩ := hd; simp [jsGet, ih]

/-- `jsGet` over an append when the right part lacks the key. -/
theorem jsGet_append_none {l₁ l₂ : List (String × String)} {k : String}
    (h : jsGet l₂ k = none) : jsGet (l₁ ++ l₂) k = jsGet l₁ k := by
  induction l₁ with
  | nil => simpa using h
  | cons hd tl ih => obtain ⟨k', v'⟩ := hd; simp [jsGet, ih]

/-- C7 (counterexample): for the red node the extracted background
declaration is `rgba(255, 0, 0, 1)` — with a space after each comma — so
it does not equal the claimed string `rgba(255,0,0,1)`. -/
theorem c7_counterexample :
    jsGet (Advanced.extractAllStyles node7) "backgroundColor" =
        some "rgba(255, 0, 0, 1)" ∧
      ("rgba(255, 0, 0, 1)" : String) ≠ "rgba(255,0,0,1)" := by
  have hcol : Advanced.colorToCSS { r := 1, g := 0, b := 0, a := some 1 }
      none = "rgba(255, 0, 0, 1)" := by
    norm_num [Advanced.colorToCSS, jsRound, qToJsString]
    rfl
  refine ⟨?_, by decide⟩
  simp [Advanced.extractAllStyles, node7, hcol, jsGet, numTruthy,
    FigmaNode.core]

/-- C7 (amended): every node with `backgroundColor = {r:1,g:0,b:0,a:1}`
and no fills gets the background declaration `rgba(255, 0, 0, 1)` (spaces
after the commas; alpha taken from the colour's own alpha channel). -/
theorem c7_amended_background_rgba (n : FigmaNode)
    (hbg : n.core.backgroundColor =
      some { r := 1, g := 0, b := 0, a := some 1 })
    (hfills : n.core.fills = []) :
    jsGet (Advanced.extractAllStyles n) "backgroundColor" =
      some "rgba(255, 0, 0, 1)" := by
  have hcol : Advanced.colorToCSS { r := 1, g := 0, b := 0, a := some 1 }
      none = "rgba(255, 0, 0, 1)" := by
    norm_num [Advanced.colorToCSS, jsRound, qToJsString]
    rfl
  simp only [Advanced.extractAllStyles, hbg, hfills, hcol]
  refine Eq.trans (jsGet_append_none ?_) ?_
  · repeat' split
    all_goals simp [jsGet]
  refine Eq.trans (jsGet_append_none ?_) ?_
  · repeat' split
    all_goals simp [jsGet]
  refine Eq.trans (jsGet_append_none ?_) ?_
  · repeat' split
    all_goals simp [jsGet]
  refine Eq.trans (jsGet_append_none ?_) ?_
  · repeat' split
    all_goals simp [jsGet]
  refine Eq.trans (jsGet_append_none ?_) ?_
  · repeat' split
    all_goals simp [jsGet]
  refine Eq.trans (jsGet_append_none rfl) ?_
  exact jsGet_append_some (by simp [jsGet])

/-- C7 (witness): the amended theorem applied to the concrete red node. -/
theorem c7_amended_background_rgba_witness :
    node7.core.backgroundColor =
        some { r := 1, g := 0, b := 0, a := some 1 } ∧
      node7.core.fills = [] ∧
      jsGet (Advanced.extractAllStyles node7) "backgroundColor" =
        some "rgba(255, 0, 0, 1)" :=
  ⟨rfl, rfl, c7_amended_background_rgba node7 rfl rfl⟩
